import Mathlib

/-!
Verification of the staleness-aware data refresh engine of the
alphastream-backend repository, as a shallow embedding in Lean 4.

Conventions of the embedding:
* Timestamps, TTLs and the clock are integers (`Int`); the code compares
  `datetime` / `time.time()` values only with `<` and `>`, so any linearly
  ordered time works and overflow never matters.
* Numeric payload values are rationals (`Rat`); a field that is absent,
  `None`, or unparseable upstream is `Option.none`.
* Python dict-shaped tables are functions `String → Option row`.
* A Python function that may raise is an `Except`-valued function; network
  effects are counted explicitly so that "how many upstream fetches were
  issued" is part of the result.
-/

/-- The upstream fetch outcome seen by a caller: the adapter either returns
a value or raises an exception (every `Exception` path in the source collapses to one
constructor; the code only distinguishes success from failure). -/
inductive FetchOutcome (α : Type) where
  | ok (v : α)
  | err
deriving DecidableEq, Repr

/-! ## `utils/cache.py` — `TTLCache` -/

/-- Shallow embedding of `utils/cache.py` `TTLCache`: `ttl` is the
`ttl_seconds` constructor argument, `store` is the `_store` dict mapping a
key to `(value, expires_at)`. -/
structure TTLCache (α : Type) where
  ttl : Int
  store : String → Option (α × Int)

namespace TTLCache

/-- `TTLCache.__init__(ttl_seconds)`: empty store. -/
def init (α : Type) (ttl_seconds : Int) : TTLCache α :=
  { ttl := ttl_seconds, store := fun _ => none }

/-- `TTLCache.set(key, value)`: stores `(value, time.time() + self.ttl)`.
The current clock `now` is passed explicitly. -/
def set (c : TTLCache α) (key : String) (value : α) (now : Int) : TTLCache α :=
  { c with store := fun k => if k = key then some (value, now + c.ttl) else c.store k }

/-- `TTLCache.get(key)`: returns `(value, stale)`; `(None, False)` when the
key is missing, `(value, True)` when `now > expires_at`, `(value, False)`
otherwise. -/
def get (c : TTLCache α) (key : String) (now : Int) : Option α × Bool :=
  match c.store key with
  | none => (none, false)
  | some (value, expires_at) => if now > expires_at then (some value, true) else (some value, false)

/-- `TTLCache.clear()`. -/
def clear (c : TTLCache α) : TTLCache α :=
  { c with store := fun _ => none }

end TTLCache

/-! ## `services/price_history_importer.py` — staleness checks -/

/-- `EOD_TTL_HOURS = 24`, expressed in minutes (the common time unit of
this file): 24 hours. -/
def EOD_TTL_AS_MINUTES : Int := 24 * 60

/-- `INTRADAY_TTL_MINUTES = 5`. -/
def INTRADAY_TTL_MINUTES : Int := 5

/-- `_is_eod_stale(symbol)` with the database read
`db.get_eod_last_updated(symbol)` made an explicit argument: `True` when no
`last_updated` exists (or it fails to parse — an unparseable timestamp is
`none` here), else `last_dt < now - 24h`. -/
def is_eod_stale (last_updated : Option Int) (now : Int) : Bool :=
  match last_updated with
  | none => true
  | some last_dt => decide (last_dt < now - EOD_TTL_AS_MINUTES)

/-- `_is_intraday_stale(symbol, timeframe)` with the database read made an
explicit argument: `True` when no `last_updated` exists, else
`last_dt < now - 5min`. -/
def is_intraday_stale (last_updated : Option Int) (now : Int) : Bool :=
  match last_updated with
  | none => true
  | some last_dt => decide (last_dt < now - INTRADAY_TTL_MINUTES)

/-! ## `services/market.py` — market session state -/

/-- `MarketStatus` literals from `models.py` / `market.py`. -/
inductive MarketStatus where
  | Open
  | PreMarket
  | AfterHours
  | Closed
deriving DecidableEq, Repr

/-- `_market_status()` from `services/market.py`: classifies
`datetime.utcnow().hour` against fixed UTC windows. -/
def market_status (hour : Int) : MarketStatus :=
  if 14 ≤ hour ∧ hour < 21 then .Open
  else if 9 ≤ hour ∧ hour < 14 then .PreMarket
  else if 21 ≤ hour ∨ hour < 9 then .AfterHours
  else .Closed

/-- The price-bar categories whose staleness the importer checks. -/
inductive BarCategory where
  | eod
  | intraday
deriving DecidableEq, Repr

/-- The staleness check the source dispatches per category
(`_is_eod_stale` for `"1day"` bars, `_is_intraday_stale` for intraday
bars).  A `MarketStatus` argument is threaded through so that claims about
session-state dependence can be stated; neither source function reads it. -/
def bar_stale (cat : BarCategory) (last_updated : Option Int) (now : Int)
    (_session : MarketStatus) : Bool :=
  match cat with
  | .eod => is_eod_stale last_updated now
  | .intraday => is_intraday_stale last_updated now

/-- Three-way staleness result named by the spec. -/
inductive Staleness where
  | FRESH
  | STALE
  | MISSING
deriving DecidableEq, Repr

/-- The staleness threshold the source uses for each bar category. -/
def bar_threshold (cat : BarCategory) : Int :=
  match cat with
  | .eod => EOD_TTL_AS_MINUTES
  | .intraday => INTRADAY_TTL_MINUTES

/-- Modelled from the spec (refinement side, §4.1): `evaluate(category,
last_refreshed_at, session_state)` returns `MISSING` when no timestamp
exists, `STALE` when `now - last_refreshed_at > threshold`, `FRESH`
otherwise.  The per-category thresholds are the source constants. -/
def evaluate_spec (cat : BarCategory) (last_updated : Option Int) (now : Int)
    (_session : MarketStatus) : Staleness :=
  match last_updated with
  | none => .MISSING
  | some t => if now - t > bar_threshold cat then .STALE else .FRESH

/-! ## `services/market.py` — `get_market_state`

The body of the `try` block (sector aggregation, `_fetch_indices`, regime
derivation, `MarketState` construction) is abstracted as a single upstream
attempt `upstream : FetchOutcome α`: building the state performs network
fetches and either yields a fresh state or raises.  What the claims need is
visible in the result: what is returned, whether an upstream attempt was
issued synchronously before returning, and the cache afterwards. -/

/-- Result of one call to a cache-accessor: `result` is the returned value
(`Except.error` models the `raise` path), `fetches` counts upstream fetch
attempts issued synchronously during the call, `cache` is the cache state
afterwards. -/
structure AccessResult (α : Type) where
  result : Except Unit α
  fetches : Nat
  cache : TTLCache α

/-- `get_market_state()` from `services/market.py`, over cache value type
`α`: a fresh cached state returns at once with no fetch; otherwise the
state is rebuilt synchronously (one upstream attempt) — on success it is
cached and returned, on exception the cached state is returned if one
exists, else the exception propagates. -/
def get_market_state (c : TTLCache α) (now : Int) (upstream : FetchOutcome α) :
    AccessResult α :=
  let r := c.get "market" now
  match r.1, r.2 with
  | some cached_state, false => ⟨.ok cached_state, 0, c⟩
  | cached_state, _ =>
    match upstream with
    | .ok state => ⟨.ok state, 1, c.set "market" state now⟩
    | .err =>
      match cached_state with
      | some st => ⟨.ok st, 1, c⟩
      | none => ⟨.error (), 1, c⟩

/-- Python truthiness of the `cached` variable in `get_core_universe`:
`cached` is `None` (cache miss) or a list, and both `None` and the empty
list `[]` are falsy in the source's `if cached ...` tests. -/
def truthy_list (cached : Option (List σ)) : Bool :=
  match cached with
  | none => false
  | some l => !l.isEmpty

/-- What one `fetch_sp500_live()` attempt inside `get_core_universe` can
do.  `response.json()` may be any JSON value, and `raw_data.items()` runs
OUTSIDE the `try`, so three outcomes are distinguishable at the accessor:
the call raises (caught by the `except`); it returns a dict and the
per-ticker parse loop (which skips bad entries) yields `stocks`; or it
returns a non-dict payload, so `raw_data.items()` raises `AttributeError`
uncaught. -/
inductive UniverseFetch (σ : Type) where
  | raises
  | ok (stocks : List σ)
  | malformed
deriving DecidableEq, Repr

/-- `get_core_universe(force_refresh)` from `services/universe.py`, over
stock type `σ` (the universe is a `List Stock`): a truthy (non-empty)
fresh cached list is returned with no fetch unless `force_refresh`;
otherwise `fetch_sp500_live` runs synchronously — if it raises, the
cached list is returned only when truthy (an empty cached list falls
through to the bare `raise`); if it returns a non-dict payload, the
`raw_data.items()` iteration raises uncaught whatever the cache holds;
on success the parsed stocks are cached and returned. -/
def get_core_universe (c : TTLCache (List σ)) (now : Int) (force_refresh : Bool)
    (upstream : UniverseFetch σ) : AccessResult (List σ) :=
  let r := c.get "core" now
  if truthy_list r.1 && !force_refresh && !r.2 then
    ⟨.ok (r.1.getD []), 0, c⟩
  else
    match upstream with
    | .raises =>
      if truthy_list r.1 then ⟨.ok (r.1.getD []), 1, c⟩
      else ⟨.error (), 1, c⟩
    | .ok stocks => ⟨.ok stocks, 1, c.set "core" stocks now⟩
    | .malformed => ⟨.error (), 1, c⟩

/-! ## `database/db_manager.py` — alternative assets -/

/-- A row of the `alternative_assets` table (the columns
`insert_or_update_alternative_asset` writes; the key column `symbol` is
the table key). -/
structure AltAssetRow where
  name : String
  asset_type : String
  value : Option Rat
  change : Option Rat
  change_percent : Option Rat
  last_updated : Int
  fetch_error : Option String
deriving DecidableEq, Repr

/-- The `alternative_assets` table, keyed by symbol. -/
def AltAssetTable : Type := String → Option AltAssetRow

/-- `insert_or_update_alternative_asset(...)`: `INSERT OR REPLACE` of the
whole row keyed by `symbol`, with `last_updated = datetime.now()` (passed
as `now`). -/
def insert_or_update_alternative_asset (tbl : AltAssetTable)
    (symbol name asset_type : String) (value change change_percent : Option Rat)
    (fetch_error : Option String) (now : Int) : AltAssetTable :=
  fun k =>
    if k = symbol then
      some { name := name, asset_type := asset_type, value := value,
             change := change, change_percent := change_percent,
             last_updated := now, fetch_error := fetch_error }
    else tbl k

/-- `store_failure(sym, name, asset_type, msg)` from
`services/macro_importer.py` `fetch_and_import_alternative_assets`: on
total fallback-chain failure it writes `value=None, change=None,
change_percent=None, fetch_error=msg`. -/
def store_failure (tbl : AltAssetTable) (sym name asset_type msg : String)
    (now : Int) : AltAssetTable :=
  insert_or_update_alternative_asset tbl sym name asset_type none none none (some msg) now

/-! ## `services/price_history_importer.py` — refresh and read-through -/

/-- A price bar as stored in `price_bars` (the fields the refresh logic
inspects: `bar_time` orders bars, `close` is the null-checked payload
field). -/
structure Bar where
  bar_time : Int
  close : Option Rat
deriving DecidableEq, Repr

/-- The `price_bars` rows of one `(symbol, timeframe)` slice, as the
database returns them (`ORDER BY bar_time DESC`, newest first), together
with `MAX(last_updated)` of the slice (what `get_eod_last_updated` /
`get_intraday_last_updated` return; `none` when the slice is empty). -/
structure BarSlice where
  bars : List Bar
  last_updated : Option Int
deriving DecidableEq, Repr

/-- `db.delete_eod_bars(symbol)` / `db.delete_intraday_bars(symbol, tf)`
restricted to one slice: removes every row, so the slice is empty and its
`last_updated` is gone. -/
def delete_bars (_s : BarSlice) : BarSlice :=
  { bars := [], last_updated := none }

/-- `refresh_eod(symbol, limit)`: deletes the cached slice FIRST, then
fetches; an exception (`.err`) or an empty fetch returns 0 leaving the
slice as the delete left it; otherwise the fetched bars (trimmed to
`limit`) are upserted with `last_updated = now`.  Returns the new slice
and the stored-bar count the function returns. -/
def refresh_eod (s : BarSlice) (fetch : FetchOutcome (List Bar)) (limit : Nat)
    (now : Int) : BarSlice × Nat :=
  let s1 := delete_bars s
  match fetch with
  | .err => (s1, 0)
  | .ok bars =>
    if bars.isEmpty then (s1, 0)
    else
      let kept := bars.take limit
      ({ bars := kept, last_updated := some now }, kept.length)

/-- `refresh_intraday(symbol, interval, limit)`: structurally identical to
`refresh_eod` — delete first, fetch, store trimmed bars on success. -/
def refresh_intraday (s : BarSlice) (fetch : FetchOutcome (List Bar)) (limit : Nat)
    (now : Int) : BarSlice × Nat :=
  let s1 := delete_bars s
  match fetch with
  | .err => (s1, 0)
  | .ok bars =>
    if bars.isEmpty then (s1, 0)
    else
      let kept := bars.take limit
      ({ bars := kept, last_updated := some now }, kept.length)

/-- The `needs_refresh` condition of `get_or_fetch_eod`: no bars, or the
slice is stale, or one of the first 5 bars has a null `close`. -/
def eod_needs_refresh (s : BarSlice) (now : Int) (limit : Nat) : Bool :=
  let bars := s.bars.take limit
  bars.isEmpty || is_eod_stale s.last_updated now
    || (bars.take 5).any (fun b => b.close.isNone)

/-- The `needs_refresh` condition of `get_or_fetch_intraday`. -/
def intraday_needs_refresh (s : BarSlice) (now : Int) (limit : Nat) : Bool :=
  let bars := s.bars.take limit
  bars.isEmpty || is_intraday_stale s.last_updated now
    || (bars.take 5).any (fun b => b.close.isNone)

/-- `get_or_fetch_eod(symbol, limit)`: read the slice; if `needs_refresh`,
run `refresh_eod` synchronously (one upstream attempt) and re-read; return
the bars oldest→newest.  Result: (returned bars, slice afterwards, number
of synchronous upstream attempts). -/
def get_or_fetch_eod (s : BarSlice) (now : Int) (fetch : FetchOutcome (List Bar))
    (limit : Nat) : List Bar × BarSlice × Nat :=
  if eod_needs_refresh s now limit then
    let s2 := (refresh_eod s fetch limit now).1
    ((s2.bars.take limit).reverse, s2, 1)
  else
    ((s.bars.take limit).reverse, s, 0)

/-! ## Interleaving model of concurrent `get_or_fetch_intraday` calls

`get_or_fetch_intraday` runs on request-handling threads with no lock: the
initial read-and-check and the refresh are separate database operations,
so two concurrent calls interleave at that boundary.  Each caller is a
two-step program: (1) read the slice and compute `needs_refresh`;
(2) if needed, run `refresh_intraday` (the step that issues the upstream
fetch) and re-read, else re-use the read bars.  `fetches` counts upstream
fetch attempts issued across all callers. -/

/-- Where one caller of `get_or_fetch_intraday` stands. -/
inductive CallerPhase where
  | ready
  | willRefresh (needs : Bool)
  | finished (ret : List Bar)
deriving DecidableEq, Repr

/-- Shared database slice + upstream-fetch counter + each caller's phase. -/
structure IntradayRun where
  db : BarSlice
  fetches : Nat
  callers : List CallerPhase
deriving DecidableEq, Repr

/-- One atomic step of caller `i`. -/
def intraday_step (fetch : FetchOutcome (List Bar)) (now : Int) (limit : Nat)
    (w : IntradayRun) (i : Nat) : IntradayRun :=
  match w.callers[i]? with
  | none => w
  | some .ready =>
    let needs := intraday_needs_refresh w.db now limit
    { w with callers := w.callers.set i (.willRefresh needs) }
  | some (.willRefresh needs) =>
    if needs then
      let s2 := (refresh_intraday w.db fetch limit now).1
      { db := s2, fetches := w.fetches + 1,
        callers := w.callers.set i (.finished ((s2.bars.take limit).reverse)) }
    else
      { w with callers := w.callers.set i (.finished ((w.db.bars.take limit).reverse)) }
  | some (.finished _) => w

/-- Run a schedule (a list of caller indices) from a start state. -/
def intraday_run (fetch : FetchOutcome (List Bar)) (now : Int) (limit : Nat)
    (w0 : IntradayRun) (schedule : List Nat) : IntradayRun :=
  schedule.foldl (intraday_step fetch now limit) w0

/-! ## `services/hybrid_importer.py` — quote → stock row -/

/-- `_to_float(val, default)`: `float(val)` when it converts, else the
default.  An absent / `None` / unconvertible upstream value is `none`; the
default is `some 0` for `default=0.0` calls and `none` for
`_to_float(..., None)` calls. -/
def to_float (val : Option Rat) (default : Option Rat) : Option Rat :=
  match val with
  | some v => some v
  | none => default

/-- The FMP quote payload fields `fetch_and_import_sp500_hybrid` reads
(each possibly missing upstream). -/
structure FmpQuote where
  price : Option Rat
  changesPercentage : Option Rat
  volume : Option Rat
  dayHigh : Option Rat
  dayLow : Option Rat
  yearHigh : Option Rat
  yearLow : Option Rat
  pe : Option Rat
  eps : Option Rat
  marketCap : Option Rat
  sharesOutstanding : Option Rat
deriving DecidableEq, Repr

/-- The numeric payload columns of the stock record
`fetch_and_import_sp500_hybrid` persists (`stocks_to_insert` entry). -/
structure StockRow where
  price : Option Rat
  change_1d : Option Rat
  change_1w : Option Rat
  change_1m : Option Rat
  change_1y : Option Rat
  change_5y : Option Rat
  change_ytd : Option Rat
  volume : Option Rat
  high_1d : Option Rat
  low_1d : Option Rat
  high_1m : Option Rat
  low_1m : Option Rat
  high_1y : Option Rat
  low_1y : Option Rat
  high_5y : Option Rat
  low_5y : Option Rat
  pe_ratio : Option Rat
  eps : Option Rat
  dividend_yield : Option Rat
  market_cap : Option Rat
  shares_outstanding : Option Rat
  net_profit_margin : Option Rat
  gross_margin : Option Rat
  roe : Option Rat
  revenue_ttm : Option Rat
  beta : Option Rat
  weight : Option Rat
deriving DecidableEq, Repr

/-- The record literal built per constituent in
`fetch_and_import_sp500_hybrid` (lines 141–185): every `_to_float(...)`
call with its source default, the hardcoded `0.0` columns, and the
hardcoded `None` columns.  (`volume` passes through `int(...)` in the
source; the truncation is immaterial to which values are fabricated.) -/
def hybrid_stock_row (quote : FmpQuote) : StockRow :=
  { price := to_float quote.price (some 0)
    change_1d := to_float quote.changesPercentage (some 0)
    change_1w := some 0
    change_1m := some 0
    change_1y := some 0
    change_5y := some 0
    change_ytd := some 0
    volume := to_float quote.volume (some 0)
    high_1d := to_float quote.dayHigh (some 0)
    low_1d := to_float quote.dayLow (some 0)
    high_1m := none
    low_1m := none
    high_1y := to_float quote.yearHigh (some 0)
    low_1y := to_float quote.yearLow (some 0)
    high_5y := none
    low_5y := none
    pe_ratio := to_float quote.pe none
    eps := to_float quote.eps none
    dividend_yield := some 0
    market_cap := to_float quote.marketCap (some 0)
    shares_outstanding := to_float quote.sharesOutstanding none
    net_profit_margin := none
    gross_margin := none
    roe := none
    revenue_ttm := none
    beta := none
    weight := some 0 }

/-- The spec's no-fabrication property for one payload field: the stored
value is the verbatim upstream value or explicit null. -/
def field_faithful (upstream stored : Option Rat) : Prop :=
  stored = upstream ∨ stored = none

instance (u s : Option Rat) : Decidable (field_faithful u s) := by
  unfold field_faithful; infer_instance

/-! ## Concrete fixtures used by the counterexample / witness theorems -/

/-- A quote whose `price` field is missing upstream. -/
def quoteNoPrice : FmpQuote :=
  { price := none, changesPercentage := some 1, volume := some 1000,
    dayHigh := some 11, dayLow := some 9, yearHigh := some 20, yearLow := some 5,
    pe := none, eps := some 3, marketCap := some 1000000, sharesOutstanding := none }

/-- A last-known-good alternative-asset row (BTC fetched successfully at
time 100). -/
def btcLKG : AltAssetRow :=
  { name := "Bitcoin", asset_type := "crypto", value := some 50000,
    change := some 10, change_percent := some 1, last_updated := 100,
    fetch_error := none }

/-- An `alternative_assets` table holding only the BTC last-known-good row. -/
def altTable0 : AltAssetTable :=
  fun k => if k = "BTC" then some btcLKG else none

/-- A market cache whose `"market"` entry (value 7) expired at time 50. -/
def staleMarketCache : TTLCache Nat :=
  { ttl := 600, store := fun k => if k = "market" then some (7, 50) else none }

/-- An EOD slice holding one good bar, last refreshed at time 0. -/
def eodSlice0 : BarSlice :=
  { bars := [{ bar_time := 1, close := some 100 }], last_updated := some 0 }

/-- Two callers about to run `get_or_fetch_intraday` against an empty
(MISSING) slice. -/
def missingRun0 : IntradayRun :=
  { db := { bars := [], last_updated := none }, fetches := 0,
    callers := [.ready, .ready] }

/-- The bars the upstream returns in the concurrency scenarios. -/
def freshBars : List Bar :=
  [{ bar_time := 2, close := some 101 }]

/-- A universe cache whose `"core"` entry (the one-stock list `[9]`)
expired at time 50. -/
def staleCoreCache : TTLCache (List Nat) :=
  { ttl := 3600, store := fun k => if k = "core" then some ([9], 50) else none }

/-- A universe cache whose `"core"` entry is the cached EMPTY list
(reachable in the source: an upstream dict with no parseable tickers is
cached as `[]`), expired at time 50. -/
def emptyCoreCache : TTLCache (List Nat) :=
  { ttl := 3600, store := fun k => if k = "core" then some (([] : List Nat), 50) else none }

/-- Three callers about to run `get_or_fetch_intraday` against an empty
slice. -/
def missingRun3 : IntradayRun :=
  { db := { bars := [], last_updated := none }, fetches := 0,
    callers := [.ready, .ready, .ready] }

/-! ## Theorems -/

/-- C10: `TTLCache` lookup semantics — a key never set (fresh cache) and a
key after `clear` both yield `(None, False)`, so a missing entry is
signalled only by the `None` value; and `set(k, v)` followed by `get(k)`
before `ttl_seconds` have elapsed returns exactly `(v, False)`. -/
theorem c10_ttlcache_lookup (α : Type) (ttl_seconds : Int) (c : TTLCache α)
    (k key : String) (v : α) (now later : Int) (h : later - now < c.ttl) :
    (TTLCache.init α ttl_seconds).get k later = (none, false)
    ∧ c.clear.get k later = (none, false)
    ∧ (c.set key v now).get key later = (some v, false) := by
  refine ⟨rfl, rfl, ?_⟩
  have hle : ¬ later > now + c.ttl := by omega
  simp [TTLCache.set, TTLCache.get, hle]

/-- Witness for C10 at a concrete cache. -/
theorem c10_ttlcache_lookup_witness :
    (3 : Int) - 0 < (TTLCache.init Nat 5).ttl
    ∧ ((TTLCache.init Nat 5).get "x" 3 = (none, false)
      ∧ (TTLCache.init Nat 5).clear.get "x" 3 = (none, false)
      ∧ ((TTLCache.init Nat 5).set "k" 42 0).get "k" 3 = (some 42, false)) :=
  ⟨by decide, c10_ttlcache_lookup Nat 5 (TTLCache.init Nat 5) "x" "k" 42 0 3 (by decide)⟩

/-- C7: the staleness evaluation is `MISSING` exactly when no
`last_refreshed_at` exists, `STALE` exactly when `now - last_refreshed_at`
exceeds the category's threshold, `FRESH` otherwise; the source's boolean
checks (`_is_eod_stale` / `_is_intraday_stale` dispatched by category)
agree with it, and `TTLCache` realises the same semantics (absent entry ↦
missing, stale exactly when `now - set_time > ttl`). -/
theorem c7_staleness_classification (cat : BarCategory) (last : Option Int)
    (now : Int) (s : MarketStatus) {α : Type} (ttl_seconds : Int)
    (c : TTLCache α) (key : String) (v : α) (t0 : Int) :
    (evaluate_spec cat last now s = .MISSING ↔ last = none)
    ∧ (evaluate_spec cat last now s = .STALE
        ↔ ∃ t, last = some t ∧ now - t > bar_threshold cat)
    ∧ (evaluate_spec cat last now s = .FRESH
        ↔ ∃ t, last = some t ∧ now - t ≤ bar_threshold cat)
    ∧ (bar_stale cat last now s = true ↔ evaluate_spec cat last now s ≠ .FRESH)
    ∧ ((TTLCache.init α ttl_seconds).get key now = (none, false))
    ∧ ((c.set key v t0).get key now = (some v, true) ↔ now - t0 > c.ttl) := by
  have hcode : bar_stale cat last now s =
      (match last with
       | none => true
       | some t => decide (t < now - bar_threshold cat)) := by
    cases last <;> cases cat <;>
      simp [bar_stale, bar_threshold, is_eod_stale, is_intraday_stale]
  refine ⟨?_, ?_, ?_, ?_, rfl, ?_⟩
  · rcases last with _ | t
    · simp [evaluate_spec]
    · simp only [evaluate_spec]
      split <;> simp
  · rcases last with _ | t
    · simp [evaluate_spec]
    · simp only [evaluate_spec, Option.some.injEq]
      split <;> rename_i hsplit <;> simp <;> omega
  · rcases last with _ | t
    · simp [evaluate_spec]
    · simp only [evaluate_spec, Option.some.injEq]
      split <;> rename_i hsplit <;> simp <;> omega
  · rw [hcode]
    rcases last with _ | t
    · simp [evaluate_spec]
    · simp only [evaluate_spec]
      split <;> rename_i hsplit <;> simp <;> omega
  · by_cases hgt : now > t0 + c.ttl
    · simp [TTLCache.set, TTLCache.get, hgt]
      omega
    · simp [TTLCache.set, TTLCache.get, hgt]
      omega

/-- C6 counterexample: the source's staleness check for price bars does
not depend on the market-session state at all — there is no pair of
session states (and no category / age) classified differently, contrary
to the claim that such a pair exists. -/
theorem c6_session_independent :
    ¬ ∃ (cat : BarCategory) (last : Option Int) (now : Int)
        (s1 s2 : MarketStatus),
        bar_stale cat last now s1 ≠ bar_stale cat last now s2 := by
  rintro ⟨cat, last, now, s1, s2, h⟩
  exact h rfl

/-- C6 amended: thresholds are category-specific constants independent of
session state — 5 minutes for intraday bars and 24 hours for EOD bars,
the intraday threshold strictly shorter; the same last-refresh age is
classified differently across *categories* (a 10-minute-old record is
stale as intraday data, fresh as EOD data), never across session states. -/
theorem c6_amended_category_thresholds :
    INTRADAY_TTL_MINUTES < EOD_TTL_AS_MINUTES
    ∧ bar_stale .intraday (some 0) 10 .Open = true
    ∧ bar_stale .eod (some 0) 10 .Open = false
    ∧ bar_stale .intraday (some 0) 10 .Closed = true
    ∧ bar_stale .eod (some 0) 10 .Closed = false
    ∧ (∀ (cat : BarCategory) (last : Option Int) (now : Int)
        (s1 s2 : MarketStatus),
        bar_stale cat last now s1 = bar_stale cat last now s2) := by
  refine ⟨by decide, by decide, by decide, by decide, by decide, ?_⟩
  intro cat last now s1 s2
  rfl

/-- Helper: `_to_float(v, None)` is the identity on the option. -/
theorem to_float_with_none (v : Option Rat) : to_float v none = v := by
  cases v <;> rfl

/-- Helper: `_to_float(v, 0.0)` substitutes `0` exactly when the upstream
value is missing. -/
theorem to_float_with_zero (v : Option Rat) :
    to_float v (some 0) = if v = none then some 0 else v := by
  cases v <;> simp [to_float]

/-- C1 counterexample: for a quote whose `price` field is missing
upstream, the persisted stock record's `price` is the hardcoded default
`0.0` — neither the verbatim upstream value nor null, violating the
no-fabrication invariant as stated. -/
theorem c1_missing_price_fabricated :
    quoteNoPrice.price = none
    ∧ (hybrid_stock_row quoteNoPrice).price = some 0
    ∧ ¬ field_faithful quoteNoPrice.price (hybrid_stock_row quoteNoPrice).price := by
  refine ⟨rfl, rfl, ?_⟩
  decide

/-- C1 amended: the columns converted with a `None` default (`pe_ratio`,
`eps`, `shares_outstanding`) and the hardcoded-`None` columns do keep the
verbatim-or-null invariant, but the columns converted with default `0.0`
(`price`, `change_1d`, `market_cap`, …) substitute `0` for a missing
upstream value, and `change_1w` / `dividend_yield` / `weight` are
hardcoded `0.0` regardless of upstream. -/
theorem c1_amended_field_conversion (q : FmpQuote) :
    field_faithful q.pe (hybrid_stock_row q).pe_ratio
    ∧ field_faithful q.eps (hybrid_stock_row q).eps
    ∧ field_faithful q.sharesOutstanding (hybrid_stock_row q).shares_outstanding
    ∧ (hybrid_stock_row q).net_profit_margin = none
    ∧ (hybrid_stock_row q).beta = none
    ∧ (hybrid_stock_row q).price = (if q.price = none then some 0 else q.price)
    ∧ (hybrid_stock_row q).change_1d
        = (if q.changesPercentage = none then some 0 else q.changesPercentage)
    ∧ (hybrid_stock_row q).market_cap
        = (if q.marketCap = none then some 0 else q.marketCap)
    ∧ (hybrid_stock_row q).change_1w = some 0
    ∧ (hybrid_stock_row q).dividend_yield = some 0
    ∧ (hybrid_stock_row q).weight = some 0 := by
  refine ⟨Or.inl (to_float_with_none q.pe), Or.inl (to_float_with_none q.eps),
    Or.inl (to_float_with_none q.sharesOutstanding), rfl, rfl, ?_, ?_, ?_, rfl, rfl, rfl⟩
  · exact to_float_with_zero q.price
  · exact to_float_with_zero q.changesPercentage
  · exact to_float_with_zero q.marketCap

/-- C2 counterexample: against a cached-but-stale market state (value 7,
expired at 50, read at 100) the accessor does NOT return the old record
without an upstream wait — it issues one synchronous upstream fetch and
returns the refreshed value 8; likewise a stale EOD slice is refreshed
synchronously (one upstream attempt) and the NEW bars are returned. -/
theorem c2_stale_read_blocks :
    staleMarketCache.get "market" 100 = (some 7, true)
    ∧ (get_market_state staleMarketCache 100 (.ok 8)).result = .ok 8
    ∧ (get_market_state staleMarketCache 100 (.ok 8)).result ≠ .ok 7
    ∧ (get_market_state staleMarketCache 100 (.ok 8)).fetches = 1
    ∧ is_eod_stale eodSlice0.last_updated 2000 = true
    ∧ (get_or_fetch_eod eodSlice0 2000 (.ok freshBars) 2000).1 = freshBars
    ∧ (get_or_fetch_eod eodSlice0 2000 (.ok freshBars) 2000).2.2 = 1 := by
  refine ⟨rfl, rfl, ?_, rfl, rfl, rfl, rfl⟩
  intro h
  exact absurd (Except.ok.inj h) (by decide)

/-- C2 amended: a `STALE` (or `MISSING`) read blocks on a synchronous
refresh: with a cached `"market"` entry `(v, e)`, a read after expiry
issues one upstream fetch and returns the NEW state on success; the old
record is returned only when that synchronous fetch fails; a fresh read
returns the cached record with no fetch.  `get_or_fetch_eod` likewise
performs its one upstream attempt synchronously exactly when
`needs_refresh` holds. -/
theorem c2_amended_synchronous_revalidate {α : Type} (c : TTLCache α)
    (now e : Int) (v new : α) (s : BarSlice) (fetch : FetchOutcome (List Bar))
    (limit : Nat) (hm : c.store "market" = some (v, e)) :
    get_market_state c now (.ok new)
      = (if now > e then ⟨.ok new, 1, c.set "market" new now⟩ else ⟨.ok v, 0, c⟩)
    ∧ get_market_state c now .err
      = (if now > e then ⟨.ok v, 1, c⟩ else ⟨.ok v, 0, c⟩)
    ∧ (get_or_fetch_eod s now fetch limit).2.2
      = (if eod_needs_refresh s now limit then 1 else 0)
    ∧ (get_or_fetch_eod s now fetch limit).2.1
      = (if eod_needs_refresh s now limit then (refresh_eod s fetch limit now).1 else s) := by
  by_cases hn : now > e
  · refine ⟨?_, ?_, ?_, ?_⟩ <;>
      simp [get_market_state, get_or_fetch_eod, TTLCache.get, hm, hn] <;>
      split <;> simp
  · refine ⟨?_, ?_, ?_, ?_⟩ <;>
      simp [get_market_state, get_or_fetch_eod, TTLCache.get, hm, hn] <;>
      split <;> simp

/-- Witness for C2 amended at the concrete stale market cache. -/
theorem c2_amended_synchronous_revalidate_witness :
    staleMarketCache.store "market" = some (7, 50)
    ∧ (get_market_state staleMarketCache 100 (.ok 8)
        = (if (100 : Int) > 50 then ⟨.ok 8, 1, staleMarketCache.set "market" 8 100⟩
           else ⟨.ok 7, 0, staleMarketCache⟩)
      ∧ get_market_state staleMarketCache 100 .err
        = (if (100 : Int) > 50 then ⟨.ok 7, 1, staleMarketCache⟩
           else ⟨.ok 7, 0, staleMarketCache⟩)
      ∧ (get_or_fetch_eod eodSlice0 100 (.ok freshBars) 2000).2.2
        = (if eod_needs_refresh eodSlice0 100 2000 then 1 else 0)
      ∧ (get_or_fetch_eod eodSlice0 100 (.ok freshBars) 2000).2.1
        = (if eod_needs_refresh eodSlice0 100 2000
           then (refresh_eod eodSlice0 (.ok freshBars) 2000 100).1 else eodSlice0)) :=
  ⟨by decide,
   c2_amended_synchronous_revalidate staleMarketCache 100 50 7 8 eodSlice0
     (.ok freshBars) 2000 (by decide)⟩

/-- C3 counterexample: a last-known-good BTC row (value 50000) exists, yet
`store_failure` persists a row with null `value`/`change`/`change_percent`
— the previous payload is overwritten with nulls, not served with
`fetch_error` attached. -/
theorem c3_failure_overwrites_lkg :
    altTable0 "BTC" = some btcLKG
    ∧ btcLKG.value = some 50000
    ∧ store_failure altTable0 "BTC" "Bitcoin" "crypto" "all sources failed" 200 "BTC"
        = some { name := "Bitcoin", asset_type := "crypto", value := none,
                 change := none, change_percent := none, last_updated := 200,
                 fetch_error := some "all sources failed" }
    ∧ (store_failure altTable0 "BTC" "Bitcoin" "crypto" "all sources failed" 200 "BTC").bind
        AltAssetRow.value = none := by
  decide

/-- C3 amended: on total fallback-chain failure the code unconditionally
persists a null-payload row with `fetch_error` set for the failed key —
whether or not a last-known-good record exists — leaving other keys
untouched. -/
theorem c3_amended_failure_writes_null (tbl : AltAssetTable)
    (sym nm asset_type msg : String) (now : Int) (k : String) :
    store_failure tbl sym nm asset_type msg now sym
      = some { name := nm, asset_type := asset_type, value := none,
               change := none, change_percent := none, last_updated := now,
               fetch_error := some msg }
    ∧ (k ≠ sym → store_failure tbl sym nm asset_type msg now k = tbl k) := by
  constructor
  · simp [store_failure, insert_or_update_alternative_asset]
  · intro h
    simp [store_failure, insert_or_update_alternative_asset, h]

/-- Witness for C3 amended at the concrete BTC table. -/
theorem c3_amended_failure_writes_null_witness :
    ("ETH" : String) ≠ "BTC"
    ∧ store_failure altTable0 "BTC" "Bitcoin" "crypto" "boom" 200 "BTC"
        = some { name := "Bitcoin", asset_type := "crypto", value := none,
                 change := none, change_percent := none, last_updated := 200,
                 fetch_error := some "boom" }
    ∧ store_failure altTable0 "BTC" "Bitcoin" "crypto" "boom" 200 "ETH"
        = altTable0 "ETH" :=
  ⟨by decide,
   (c3_amended_failure_writes_null altTable0 "BTC" "Bitcoin" "crypto" "boom" 200 "ETH").1,
   (c3_amended_failure_writes_null altTable0 "BTC" "Bitcoin" "crypto" "boom" 200 "ETH").2
     (by decide)⟩

/-- C5 counterexample: the BTC row was last refreshed at 100; a totally
failed refresh at 200 (fallback to nothing, `store_failure`) rewrites
`last_updated` to 200, so the stored age no longer reflects true data
age. -/
theorem c5_failure_touches_timestamp :
    (altTable0 "BTC").map AltAssetRow.last_updated = some 100
    ∧ (store_failure altTable0 "BTC" "Bitcoin" "crypto" "boom" 200 "BTC").map
        AltAssetRow.last_updated = some 200 := by
  decide

/-- C5 amended: `insert_or_update_alternative_asset` stamps
`last_updated = now` on every write, success and failure alike — in
particular a totally-failed refresh (`store_failure`) also advances the
stored timestamp. -/
theorem c5_amended_timestamp_always_stamped (tbl : AltAssetTable)
    (sym nm asset_type msg : String) (value chg chg_pct : Option Rat)
    (fe : Option String) (now : Int) :
    (insert_or_update_alternative_asset tbl sym nm asset_type value chg chg_pct fe now sym).map
        AltAssetRow.last_updated = some now
    ∧ (store_failure tbl sym nm asset_type msg now sym).map
        AltAssetRow.last_updated = some now := by
  constructor <;> simp [store_failure, insert_or_update_alternative_asset]

/-- C8 counterexample: when no cached record exists and the upstream fetch
fails — pure data-unavailability, not a programmer or configuration error
— both accessors re-raise the exception instead of returning a record. -/
theorem c8_raises_when_unavailable :
    (get_market_state (TTLCache.init Nat 600) 0 .err).result = .error ()
    ∧ (get_core_universe (TTLCache.init (List Nat) 3600) 0 false .raises).result
        = .error () := by
  exact ⟨rfl, rfl⟩

/-- C8 amended: `get_market_state` raises for data-unavailability exactly
when no cached state exists (with a cached entry it always returns a
record, whatever the upstream outcome), but `get_core_universe` also
raises DESPITE a cached record in two cases: when the cached universe is
the empty list — falsy to the source's truthiness tests, so the bare
`raise` is reached — and when a successfully fetched payload is not a
dict, so `raw_data.items()` raises uncaught even with a usable cache.  A
non-empty cached universe is served when the fetch itself raises, and a
successful dict fetch always returns the parsed stocks. -/
theorem c8_amended_raise_paths {α σ : Type} (c : TTLCache α)
    (c2 c3 : TTLCache (List σ)) (now e e2 e3 ttl_seconds : Int)
    (u : FetchOutcome α) (fr : Bool) (v : α) (w : σ) (ws stocks : List σ)
    (hm : c.store "market" = some (v, e))
    (hc : c2.store "core" = some (w :: ws, e2))
    (hc0 : c3.store "core" = some (([] : List σ), e3)) :
    (∃ x, (get_market_state c now u).result = .ok x)
    ∧ (get_market_state (TTLCache.init α ttl_seconds) now .err).result = .error ()
    ∧ (get_core_universe c2 now fr .raises).result = .ok (w :: ws)
    ∧ (get_core_universe c2 now true (.ok stocks)).result = .ok stocks
    ∧ (get_core_universe c2 now true .malformed).result = .error ()
    ∧ (get_core_universe c3 now fr .raises).result = .error ()
    ∧ (get_core_universe (TTLCache.init (List σ) ttl_seconds) now fr .raises).result
        = .error () := by
  refine ⟨?_, rfl, ?_, ?_, ?_, ?_, rfl⟩
  · by_cases hn : now > e <;> cases u <;>
      simp [get_market_state, TTLCache.get, hm, hn]
  · by_cases hn : now > e2 <;> cases fr <;>
      simp [get_core_universe, TTLCache.get, truthy_list, hc, hn]
  · by_cases hn : now > e2 <;>
      simp [get_core_universe, TTLCache.get, truthy_list, hc, hn]
  · by_cases hn : now > e2 <;>
      simp [get_core_universe, TTLCache.get, truthy_list, hc, hn]
  · by_cases hn : now > e3 <;> cases fr <;>
      simp [get_core_universe, TTLCache.get, truthy_list, hc0, hn]

/-- Witness for C8 amended at the concrete caches. -/
theorem c8_amended_raise_paths_witness :
    staleMarketCache.store "market" = some (7, 50)
    ∧ staleCoreCache.store "core" = some ([9], 50)
    ∧ emptyCoreCache.store "core" = some (([] : List Nat), 50)
    ∧ ((∃ x, (get_market_state staleMarketCache 100 .err).result = .ok x)
      ∧ (get_market_state (TTLCache.init Nat 600) 100 .err).result = .error ()
      ∧ (get_core_universe staleCoreCache 100 false .raises).result = .ok [9]
      ∧ (get_core_universe staleCoreCache 100 true (.ok [5])).result = .ok [5]
      ∧ (get_core_universe staleCoreCache 100 true .malformed).result = .error ()
      ∧ (get_core_universe emptyCoreCache 100 false .raises).result = .error ()
      ∧ (get_core_universe (TTLCache.init (List Nat) 600) 100 false .raises).result
          = .error ()) :=
  ⟨by decide, by decide, by decide,
   c8_amended_raise_paths staleMarketCache staleCoreCache emptyCoreCache 100 50 50 50 600
     .err false 7 9 [] [5] (by decide) (by decide) (by decide)⟩

/-- C9 counterexample: `refresh_eod` deletes the cached slice before
fetching, so with one good bar cached, a refresh whose fetch raises — or
returns no bars — leaves the slice empty: the previously cached data is
destroyed by the failed refresh, not left unchanged. -/
theorem c9_failed_refresh_destroys_cache :
    eodSlice0.bars ≠ []
    ∧ (refresh_eod eodSlice0 .err 2000 50).1
        = { bars := [], last_updated := none }
    ∧ (refresh_eod eodSlice0 (.ok []) 2000 50).1
        = { bars := [], last_updated := none } := by
  decide

/-- C9 amended: a refresh is delete-then-replace, not atomic replacement:
a fetch that fails or returns nothing leaves the slice EMPTY (the
pre-delete contents are lost), and only a successful non-empty fetch
installs the new bars wholesale. -/
theorem c9_amended_delete_before_fetch (s : BarSlice) (bars : List Bar)
    (limit : Nat) (now : Int) (h : bars ≠ []) :
    (refresh_eod s .err limit now).1 = { bars := [], last_updated := none }
    ∧ (refresh_eod s (.ok []) limit now).1 = { bars := [], last_updated := none }
    ∧ (refresh_eod s (.ok bars) limit now).1
        = { bars := bars.take limit, last_updated := some now }
    ∧ (refresh_intraday s .err limit now).1 = { bars := [], last_updated := none } := by
  refine ⟨rfl, rfl, ?_, rfl⟩
  cases bars with
  | nil => cases h rfl
  | cons a t => rfl

/-- Witness for C9 amended at the concrete slice. -/
theorem c9_amended_delete_before_fetch_witness :
    freshBars ≠ []
    ∧ ((refresh_eod eodSlice0 .err 2000 50).1 = { bars := [], last_updated := none }
      ∧ (refresh_eod eodSlice0 (.ok []) 2000 50).1 = { bars := [], last_updated := none }
      ∧ (refresh_eod eodSlice0 (.ok freshBars) 2000 50).1
          = { bars := freshBars.take 2000, last_updated := some 50 }
      ∧ (refresh_intraday eodSlice0 .err 2000 50).1
          = { bars := [], last_updated := none }) :=
  ⟨by decide, c9_amended_delete_before_fetch eodSlice0 freshBars 2000 50 (by decide)⟩

/-- C4 counterexample: two concurrent `get_or_fetch_intraday` calls
against a MISSING key, interleaved so that both check staleness before
either refreshes, BOTH issue an upstream fetch — 2 fetches, not the
claimed exactly 1 — even though both calls complete normally. -/
theorem c4_duplicate_inflight_fetches :
    (intraday_run (.ok freshBars) 100 500 missingRun0 [0, 1, 0, 1]).callers
      = [.finished freshBars, .finished freshBars]
    ∧ (intraday_run (.ok freshBars) 100 500 missingRun0 [0, 1, 0, 1]).fetches = 2
    ∧ (intraday_run (.ok freshBars) 100 500 missingRun0 [0, 1, 0, 1]).fetches ≠ 1 := by
  decide

/-- C4 amended: the source has no in-flight guard: concurrent callers
that pass the staleness check before any of them writes each issue their
own upstream fetch (2 callers → 2 fetches, 3 callers → 3 fetches in the
checks-first interleaving), and only fully sequential execution yields a
single fetch, the later caller then hitting the refreshed cache. -/
theorem c4_amended_no_deduplication :
    (intraday_run (.ok freshBars) 100 500 missingRun0 [0, 0, 1, 1]).fetches = 1
    ∧ (intraday_run (.ok freshBars) 100 500 missingRun0 [0, 0, 1, 1]).callers
        = [.finished freshBars, .finished freshBars]
    ∧ (intraday_run (.ok freshBars) 100 500 missingRun3 [0, 1, 2, 0, 1, 2]).fetches = 3 := by
  decide
